import Mathlib

/-!
Verification development for the sdlc-agents repository.

The Lean definitions below are a shallow embedding of the Python sources:
* `src/sdlc_agents/memory/clickhouse_memory.py` — the ClickHouse-backed
  event store.  The three tables are modelled as Lean lists of rows and the
  SQL queries by the corresponding list operations (filter, sort by
  timestamp descending, limit).  `DateTime64(3)` timestamps are modelled as
  `Int` milliseconds; the server clock `now()` is an explicit parameter.
* `src/sdlc_agents/agents/base.py` — the agent runtime (`Agent.think` and
  the memory helpers).
* `src/sdlc_agents/agents/orchestrator.py` — the orchestrator.
* `src/sdlc_agents/agents/build_monitor_agent.py` — the build monitor.

Python `dict` values travelling through tasks/results are modelled by the
`PyVal` type; Python object identity (mutable dicts shared between two keys
of `monitored_builds`) is modelled with an explicit reference heap.
External collaborators (the Azure DevOps client, the LLM provider) are
modelled as environments of abstract functions, mirroring their
`Optional`/raising signatures.
-/

namespace SDLC

/-- Model of a Python/JSON-like value as it appears in task and result
dictionaries, `metadata` mappings, and parsed JSON payloads. -/
inductive PyVal where
  | vNone : PyVal
  | vBool : Bool → PyVal
  | vInt : Int → PyVal
  | vStr : String → PyVal
  | vList : List PyVal → PyVal
  | vDict : List (String × PyVal) → PyVal
deriving Repr

/-- A Python `dict[str, Any]` (tasks, results, metadata): an ordered
association list, unique keys by construction in the modelled code. -/
abbrev PyDict := List (String × PyVal)

/-- `d.get(k)`: first binding of `k`, `none` when absent (Python `None`). -/
def dictGet (d : PyDict) (k : String) : Option PyVal :=
  (d.find? (fun kv => kv.1 == k)).map (fun kv => kv.2)

/-- Python `s[:n]` on a string. -/
def strTake (s : String) (n : Nat) : String :=
  ⟨s.toList.take n⟩

mutual

/-- Python `repr()` rendering used by f-string interpolation of non-`str`
values (`None`, `True`, numbers, lists, dicts). -/
def pyValRepr : PyVal → String
  | .vNone => "None"
  | .vBool b => cond b "True" "False"
  | .vInt n => toString n
  | .vStr s => "\x27" ++ s ++ "\x27"
  | .vList xs => "[" ++ String.intercalate ", " (pyValReprList xs) ++ "]"
  | .vDict kvs => "\x7b" ++ String.intercalate ", " (pyValReprPairs kvs) ++ "\x7d"

def pyValReprList : List PyVal → List String
  | [] => []
  | v :: vs => pyValRepr v :: pyValReprList vs

def pyValReprPairs : List (String × PyVal) → List String
  | [] => []
  | kv :: kvs => ("\x27" ++ kv.1 ++ "\x27: " ++ pyValRepr kv.2) :: pyValReprPairs kvs
end

/-- Python `str()` / f-string interpolation: strings are inserted verbatim,
everything else through `repr`-style rendering. -/
def pyValStr : PyVal → String
  | .vStr s => s
  | v => pyValRepr v

/-- f-string interpolation of a `dict.get` result (`None` when absent). -/
def pyOptStr (v : Option PyVal) : String :=
  pyValStr (v.getD .vNone)

/-- Boolean substring test on character lists (needle, haystack);
the empty needle matches everywhere, as ClickHouse `position*` functions
report position 1 for an empty needle. -/
def isInfixB : List Char → List Char → Bool
  | n, [] => n.isEmpty
  | n, c :: t => n.isPrefixOf (c :: t) || isInfixB n t

/-- Lower-cased character sequence of a string (ClickHouse
`positionCaseInsensitive` compares case-folded characters). -/
def strLower (s : String) : List Char :=
  s.toList.map Char.toLower

/-- `positionCaseInsensitive(content, q) > 0`: case-insensitive substring
match of `q` inside `content`. -/
def containsCI (content q : String) : Bool :=
  isInfixB (strLower q) (strLower content)

/-- `MemoryEntry` dataclass / row of `agent_memory`. -/
structure MemoryEntry where
  agent_id : String
  timestamp : Int
  memory_type : String
  content : String
  metadata : PyDict
  session_id : Option String
deriving Repr

/-- Row of `agent_actions` (an action-log record, `log_action` argument
order). -/
structure ActionLogRecord where
  agent_id : String
  timestamp : Int
  action_type : String
  target : String
  parameters : PyDict
  result : PyVal
  success : Bool
  duration_ms : Nat
  session_id : Option String
deriving Repr

/-- Row of `work_items`. -/
structure WorkItemRow where
  work_item_id : String
  timestamp : Int
  item_type : String
  title : String
  description : String
  state : String
  assigned_agent : Option String
  metadata : PyDict
deriving Repr

/-- The ClickHouse database: contents of the three tables, in insertion
order. -/
structure ClickHouseStore where
  agent_memory : List MemoryEntry
  agent_actions : List ActionLogRecord
  work_items : List WorkItemRow
deriving Repr

/-- `ORDER BY timestamp DESC` on a result set: sort by the given timestamp
projection, largest first. -/
def sortByTsDesc {α : Type} (ts : α → Int) (l : List α) : List α :=
  l.insertionSort (fun a b => ts b ≤ ts a)

/-- One `INTERVAL 1 HOUR`, in `DateTime64(3)` milliseconds. -/
def msPerHour : Int := 3600000

/-- `store_memory`: INSERT one row into `agent_memory`. -/
def store_memory (store : ClickHouseStore) (entry : MemoryEntry) : ClickHouseStore :=
  { store with agent_memory := store.agent_memory ++ [entry] }

/-- The WHERE clause built by `get_recent_memories`.  The two optional
filters add a condition only when the Python value is truthy
(`if memory_type:` / `if session_id:`), so an empty-string filter adds no
condition. -/
def memMatchesRecent (agent_id : String) (memory_type session_id : Option String)
    (now : Int) (hours : Nat) (e : MemoryEntry) : Bool :=
  e.agent_id == agent_id
    && decide (now - (hours : Int) * msPerHour < e.timestamp)
    && (match memory_type with
        | some t => if t = "" then true else e.memory_type == t
        | none => true)
    && (match session_id with
        | some s => if s = "" then true else e.session_id == some s
        | none => true)

/-- `get_recent_memories(agent_id, limit, memory_type, session_id, hours)`:
filter `agent_memory`, `ORDER BY timestamp DESC`, `LIMIT limit`. -/
def get_recent_memories (store : ClickHouseStore) (now : Int) (agent_id : String)
    (limit : Nat) (memory_type session_id : Option String) (hours : Nat) :
    List MemoryEntry :=
  (sortByTsDesc (fun e => e.timestamp)
    (store.agent_memory.filter (memMatchesRecent agent_id memory_type session_id now hours))).take limit

/-- `log_action`: INSERT one row into `agent_actions` (`timestamp` is
`datetime.now()` at the call). -/
def log_action (store : ClickHouseStore) (record : ActionLogRecord) : ClickHouseStore :=
  { store with agent_actions := store.agent_actions ++ [record] }

/-- The WHERE clause of `get_agent_statistics`. -/
def actionInWindow (agent_id : String) (now : Int) (hours : Nat)
    (r : ActionLogRecord) : Bool :=
  r.agent_id == agent_id && decide (now - (hours : Int) * msPerHour < r.timestamp)

/-- One bucket of the `get_agent_statistics` result
(`count`, `avg_duration_ms`, `successful`, `failed`). -/
structure ActionStats where
  count : Nat
  avg_duration_ms : ℚ
  successful : Nat
  failed : Nat
deriving DecidableEq, Repr

/-- `get_agent_statistics(agent_id, hours)`: `GROUP BY action_type` over the
agent's in-window action rows, computing `count()`, `avg(duration_ms)`,
`sum(success)` and `sum(NOT success)` per group. -/
def get_agent_statistics (store : ClickHouseStore) (now : Int) (agent_id : String)
    (hours : Nat) : List (String × ActionStats) :=
  let rows := store.agent_actions.filter (actionInWindow agent_id now hours)
  let types := (rows.map (fun r => r.action_type)).dedup
  types.map (fun t =>
    let g := rows.filter (fun r => r.action_type == t)
    (t, { count := g.length
          avg_duration_ms := ((g.map (fun r => (r.duration_ms : ℚ))).sum) / (g.length : ℚ)
          successful := (g.filter (fun r => r.success)).length
          failed := (g.filter (fun r => !r.success)).length }))

/-- `store_work_item`: INSERT one snapshot row into `work_items`
(`timestamp` is `datetime.now()`; `metadata or \x7b\x7d` stores an empty
mapping when none is given). -/
def store_work_item (store : ClickHouseStore) (now : Int) (work_item_id item_type
    title description state : String) (assigned_agent : Option String)
    (metadata : Option PyDict) : ClickHouseStore :=
  { store with work_items := store.work_items ++
      [{ work_item_id := work_item_id, timestamp := now, item_type := item_type,
         title := title, description := description, state := state,
         assigned_agent := assigned_agent, metadata := metadata.getD [] }] }

/-- `get_work_item(work_item_id)`: latest snapshot for the id
(`ORDER BY timestamp DESC LIMIT 1`), `None` when the id was never stored. -/
def get_work_item (store : ClickHouseStore) (work_item_id : String) :
    Option WorkItemRow :=
  (sortByTsDesc (fun r => r.timestamp)
    (store.work_items.filter (fun r => r.work_item_id == work_item_id))).head?

/-- `search_memories(agent_id, query, limit)`: rows of the agent whose
`content` matches the query case-insensitively
(`positionCaseInsensitive(content, query) > 0`), newest first, `LIMIT`. -/
def search_memories (store : ClickHouseStore) (agent_id query : String)
    (limit : Nat) : List MemoryEntry :=
  (sortByTsDesc (fun e => e.timestamp)
    (store.agent_memory.filter
      (fun e => e.agent_id == agent_id && containsCI e.content query))).take limit

/-- `LLMResponse` (`llm/base.py`): the fields `Agent.think` reads. -/
structure LLMResponseM where
  content : String
  model : String
  tokens_used : Option Nat
deriving DecidableEq, Repr

/-- Constructor-time identity of an agent
(`agent_id`, `name`, `system_prompt`, `session_id = uuid4()`). -/
structure AgentMeta where
  agent_id : String
  name : String
  system_prompt : String
  session_id : String
deriving DecidableEq, Repr

/-- Mutable world an agent touches: the ClickHouse store and the clock. -/
structure AgentState where
  store : ClickHouseStore
  clock : Int
deriving Repr

/-- The LLM provider plus the wall-clock time one `generate` call takes. -/
structure ThinkEnv where
  generate : List (String × String) → ℚ → Except String LLMResponseM
  latency : Nat

/-- `Agent._store_memory`: append one memory entry stamped with the current
clock and this agent's session. -/
def storeMemoryA (ag : AgentMeta) (memory_type content : String) (metadata : PyDict)
    (st : AgentState) : AgentState :=
  { store := store_memory st.store
      { agent_id := ag.agent_id, timestamp := st.clock, memory_type := memory_type,
        content := content, metadata := metadata, session_id := some ag.session_id },
    clock := st.clock + 1 }

/-- `Agent._log_action`: append one action-log record stamped with the
current clock and this agent's session. -/
def logActionA (ag : AgentMeta) (action_type target : String) (parameters : PyDict)
    (result : PyVal) (success : Bool) (duration_ms : Nat) (st : AgentState) :
    AgentState :=
  { store := log_action st.store
      { agent_id := ag.agent_id, timestamp := st.clock, action_type := action_type,
        target := target, parameters := parameters, result := result,
        success := success, duration_ms := duration_ms,
        session_id := some ag.session_id },
    clock := st.clock + 1 }

/-- The message sequence `Agent.think` sends to the LLM: the system prompt;
a context summary of the five most recent of up to ten session memories from
the last 24 hours (when any exist), each previewed to 200 characters; the
caller-supplied context rendered as `key: value` lines (when non-empty);
then the user message.  Roles are the strings of `MessageRole`. -/
def thinkMessages (ag : AgentMeta) (user_message : String)
    (context : Option (List (String × String))) (st : AgentState) :
    List (String × String) :=
  let base := [("system", ag.system_prompt)]
  let recent := get_recent_memories st.store st.clock ag.agent_id 10 none
    (some ag.session_id) 24
  let withMem :=
    if recent.isEmpty then base
    else base ++ [("system", "Recent context:\n" ++ String.intercalate "\n"
      ((recent.take 5).map (fun m => "- " ++ strTake m.content 200)))]
  let withCtx :=
    match context with
    | some c =>
        if c.isEmpty then withMem
        else withMem ++ [("system", "Context:\n" ++ String.intercalate "\n"
          (c.map (fun kv => kv.1 ++ ": " ++ kv.2)))]
    | none => withMem
  withCtx ++ [("user", user_message)]

/-- `Agent.think(user_message, context, temperature)`.  On LLM success it
stores the conversation memory (tokens and model in the metadata) and one
successful action record, returning the response; on LLM failure it stores
one failed action record with the error summary and re-raises. -/
def think (env : ThinkEnv) (ag : AgentMeta) (user_message : String)
    (context : Option (List (String × String))) (temperature : ℚ)
    (st : AgentState) : Except String LLMResponseM × AgentState :=
  let msgs := thinkMessages ag user_message context st
  match env.generate msgs temperature with
  | .ok resp =>
      let st1 : AgentState := { st with clock := st.clock + (env.latency : Int) }
      let st2 := storeMemoryA ag "conversation"
        ("User: " ++ user_message ++ "\nAssistant: " ++ resp.content)
        [("tokens", (resp.tokens_used.map PyVal.vInt).getD .vNone),
         ("model", .vStr resp.model)] st1
      let st3 := logActionA ag "think" "llm"
        [("message", .vStr (strTake user_message 200))]
        (.vDict [("content", .vStr (strTake resp.content 200))])
        true env.latency st2
      (.ok resp, st3)
  | .error e =>
      let st1 : AgentState := { st with clock := st.clock + (env.latency : Int) }
      let st2 := logActionA ag "think" "llm"
        [("message", .vStr (strTake user_message 200))]
        (.vDict [("error", .vStr e)])
        false env.latency st1
      (.error e, st2)

/-- `work_item["k"]`: indexing that raises `KeyError` when absent
(`str(KeyError(k))` quotes the key). -/
def getKey (d : PyDict) (k : String) : Except String PyVal :=
  match dictGet d k with
  | some v => .ok v
  | none => .error ("\x27" ++ k ++ "\x27")

/-- Python type names of the non-iterable `PyVal`s, for `TypeError`
rendering. -/
def pyTypeName : PyVal → String
  | .vNone => "NoneType"
  | .vBool _ => "bool"
  | .vInt _ => "int"
  | .vStr _ => "str"
  | .vList _ => "list"
  | .vDict _ => "dict"

/-- `for x in v`: lists yield their elements, strings their characters,
dicts their keys; other values raise `TypeError`. -/
def pyIter : PyVal → Except String (List PyVal)
  | .vList xs => .ok xs
  | .vStr s => .ok (s.toList.map (fun c => .vStr (String.singleton c)))
  | .vDict kvs => .ok (kvs.map (fun kv => .vStr kv.1))
  | v => .error ("TypeError: \x27" ++ pyTypeName v ++ "\x27 object is not iterable")

/-- The orchestrator: its own agent identity plus `active_agents`. -/
structure Orchestrator where
  meta : AgentMeta
  registry : List (String × (PyDict → PyDict))

/-- `agent_id in self.active_agents` / `self.active_agents[agent_id]`. -/
def lookupAgent (reg : List (String × (PyDict → PyDict))) (agent_id : String) :
    Option (PyDict → PyDict) :=
  (reg.find? (fun kv => kv.1 == agent_id)).map (fun kv => kv.2)

/-- Python dict assignment `d[k] = v`: rebind an existing key in place,
else append. -/
def upsertKV {β : Type} (l : List (String × β)) (k : String) (v : β) :
    List (String × β) :=
  if l.any (fun kv => kv.1 == k) then
    l.map (fun kv => if kv.1 == k then (k, v) else kv)
  else l ++ [(k, v)]

/-- `register_agent`: insert or rebind the agent under its id. -/
def register_agent (o : Orchestrator) (agent_id : String) (f : PyDict → PyDict) :
    Orchestrator :=
  { o with registry := upsertKV o.registry agent_id f }

/-- External collaborators of the orchestrator: the LLM provider and the
Azure DevOps client methods it calls. -/
structure OrchEnv where
  llm : ThinkEnv
  getWorkItem : Option PyVal → Option PyDict
  splitFeature : Option PyVal → PyVal → List PyVal

/-- Delegations performed during one `process_task` call:
`(agent_id, delegated task)`, in order. -/
abbrev Trace := List (String × PyDict)

/-- `OrchestratorAgent._implement_story`. -/
def implementStory (env : OrchEnv) (o : Orchestrator) (task : PyDict)
    (st : AgentState) : Except String PyDict × AgentState × Trace :=
  let story_id := dictGet task "story_id"
  match env.getWorkItem story_id with
  | none =>
      (.ok [("success", .vBool false),
            ("error", .vStr ("Story " ++ pyOptStr story_id ++ " not found"))], st, [])
  | some work_item =>
    match getKey work_item "title" with
    | .error e => (.error e, st, [])
    | .ok titleV =>
      match getKey work_item "description" with
      | .error e => (.error e, st, [])
      | .ok descV =>
        let analysis_prompt :=
          "Analyze this story and determine implementation approach:\n\nTitle: "
          ++ pyValStr titleV ++ "\nDescription: " ++ pyValStr descV
          ++ "\nAcceptance Criteria: "
          ++ pyValStr ((dictGet work_item "acceptance_criteria").getD (.vStr "Not provided"))
          ++ "\n\nDetermine:\n1. Which repositories/components need changes\n2. Complexity estimate\n3. Key implementation steps\n4. Potential risks\n\nProvide a structured implementation plan."
        match think env.llm o.meta analysis_prompt none (7/10 : ℚ) st with
        | (.error e, st1) => (.error e, st1, [])
        | (.ok resp, st1) =>
          let st2 := storeMemoryA o.meta "action"
            ("Analyzed story " ++ pyOptStr story_id ++ ": " ++ strTake resp.content 200)
            [] st1
          match lookupAgent o.registry "requirements" with
          | some req_agent =>
            let reqTask : PyDict :=
              [("type", .vStr "analyze_requirements"), ("work_item", .vDict work_item)]
            let req_result := req_agent reqTask
            match pyIter ((dictGet req_result "affected_repos").getD (.vList [])) with
            | .error e => (.error e, st2, [("requirements", reqTask)])
            | .ok repos =>
              let folded := repos.foldl (fun (acc : List PyVal × Trace) repo =>
                let aid := "code_repo_" ++ pyValStr repo
                match lookupAgent o.registry aid with
                | some code_agent =>
                    let codeTask : PyDict :=
                      [("type", .vStr "implement"), ("work_item", .vDict work_item),
                       ("requirements", (dictGet req_result "requirements").getD .vNone)]
                    (acc.1 ++ [.vDict (code_agent codeTask)], acc.2 ++ [(aid, codeTask)])
                | none => acc) ([], [])
              (.ok [("success", .vBool true),
                    ("story_id", (dictGet task "story_id").getD .vNone),
                    ("analysis", .vStr resp.content),
                    ("requirements", .vDict req_result),
                    ("code_results", .vList folded.1)], st2,
               ("requirements", reqTask) :: folded.2)
          | none =>
            (.ok [("success", .vBool true),
                  ("story_id", (dictGet task "story_id").getD .vNone),
                  ("analysis", .vStr resp.content)], st2, [])

/-- `OrchestratorAgent._split_feature`. -/
def splitFeature (env : OrchEnv) (o : Orchestrator) (task : PyDict)
    (st : AgentState) : Except String PyDict × AgentState × Trace :=
  let feature_id := dictGet task "feature_id"
  let story_count := (dictGet task "story_count").getD (.vInt 3)
  match env.getWorkItem feature_id with
  | none =>
      (.ok [("success", .vBool false),
            ("error", .vStr ("Feature " ++ pyOptStr feature_id ++ " not found"))], st, [])
  | some feature =>
    match getKey feature "title" with
    | .error e => (.error e, st, [])
    | .ok titleV =>
      match getKey feature "description" with
      | .error e => (.error e, st, [])
      | .ok descV =>
        let split_prompt :=
          "Analyze this feature and suggest how to split it into "
          ++ pyValStr story_count ++ " user stories:\n\nTitle: " ++ pyValStr titleV
          ++ "\nDescription: " ++ pyValStr descV ++ "\n\nProvide:\n1. "
          ++ pyValStr story_count
          ++ " user story titles\n2. Description for each story\n3. Suggested order of implementation\n4. Dependencies between stories\n\nFormat as a structured list."
        match think env.llm o.meta split_prompt none (7/10 : ℚ) st with
        | (.error e, st1) => (.error e, st1, [])
        | (.ok resp, st1) =>
          let stories := env.splitFeature feature_id story_count
          (.ok [("success", .vBool true),
                ("feature_id", (dictGet task "feature_id").getD .vNone),
                ("stories", .vList stories),
                ("suggestions", .vStr resp.content)], st1, [])

/-- `OrchestratorAgent._create_release`. -/
def createRelease (o : Orchestrator) (task : PyDict) (st : AgentState) :
    Except String PyDict × AgentState × Trace :=
  let components := (dictGet task "components").getD (.vList [])
  let source_branch := (dictGet task "source_branch").getD (.vStr "main")
  match lookupAgent o.registry "release_manager" with
  | some release_agent =>
      let relTask : PyDict :=
        [("type", .vStr "create_release"), ("components", components),
         ("source_branch", source_branch)]
      (.ok (release_agent relTask), st, [("release_manager", relTask)])
  | none =>
      (.ok [("success", .vBool false),
            ("error", .vStr "Release manager agent not available")], st, [])

/-- `OrchestratorAgent.process_task`: observe and record the decision,
dispatch on `task["type"]` (an unknown type yields a structured failure),
and convert any handler exception into `{success: False, error: str(e)}`
after recording a `result` memory. -/
def process_task (env : OrchEnv) (o : Orchestrator) (task : PyDict)
    (st : AgentState) : PyDict × AgentState × Trace :=
  let task_type := dictGet task "type"
  let st1 := storeMemoryA o.meta "observation"
    ("Received task: " ++ pyOptStr task_type) [] st
  let st2 := storeMemoryA o.meta "decision"
    ("Processing " ++ pyOptStr task_type ++ " task") [] st1
  let handled :=
    match task_type with
    | some (.vStr s) =>
        if s = "implement_story" then implementStory env o task st2
        else if s = "split_feature" then splitFeature env o task st2
        else if s = "create_release" then createRelease o task st2
        else (.ok [("success", .vBool false),
                   ("error", .vStr ("Unknown task type: " ++ pyOptStr task_type))],
              st2, [])
    | _ => (.ok [("success", .vBool false),
                 ("error", .vStr ("Unknown task type: " ++ pyOptStr task_type))],
            st2, [])
  match handled with
  | (.ok r, st3, tr) => (r, st3, tr)
  | (.error e, st3, tr) =>
      let st4 := storeMemoryA o.meta "result" ("Task failed: " ++ e) [] st3
      ([("success", .vBool false), ("error", .vStr e)], st4, tr)

/-- One tracking record of `monitored_builds`
(`pr_id`, `status`, `retry_count`). -/
structure BuildInfo where
  pr_id : Option PyVal
  status : String
  retry_count : Nat
deriving Repr

/-- Fields of `ADOClient.get_build`'s result that the agent reads. -/
structure BuildRec where
  build_number : String
  status : String
  result : String
  source_branch : String
  definition : Option String
deriving Repr

/-- Fields of `ADOClient.queue_build`'s result that the agent reads. -/
structure QueuedBuild where
  id : Int
deriving DecidableEq, Repr

/-- External collaborators of the build monitor. -/
structure BMEnv where
  getBuild : Int → Option BuildRec
  queueBuild : Option String → String → Option QueuedBuild
  analyzeBuild : Int → Bool × PyVal

/-- The build monitor's mutable state. -/
structure BMState where
  refs : List (Int × Nat)
  heap : Nat → BuildInfo
  nextRef : Nat
  memLog : List (String × String)

/-- `build_id in self.monitored_builds` / `self.monitored_builds[build_id]`:
the reference currently bound to a build id. -/
def lookupRef (refs : List (Int × Nat)) (bid : Int) : Option Nat :=
  (refs.find? (fun kv => kv.1 == bid)).map (fun kv => kv.2)

/-- `self.monitored_builds[k] = v`: rebind an existing key in place, else
append. -/
def setRef (refs : List (Int × Nat)) (k : Int) (v : Nat) : List (Int × Nat) :=
  if refs.any (fun kv => kv.1 == k) then
    refs.map (fun kv => if kv.1 == k then (k, v) else kv)
  else refs ++ [(k, v)]

/-- In-place mutation of the record object behind reference `r`. -/
def updFn (h : Nat → BuildInfo) (r : Nat) (v : BuildInfo) : Nat → BuildInfo :=
  fun x => if x = r then v else h x

/-- An `observe`/`decide`/`record_action` memory write. -/
def appendLog (st : BMState) (memory_type content : String) : BMState :=
  { st with memLog := st.memLog ++ [(memory_type, content)] }

/-- The escalation result of an exhausted retry budget. -/
def maxRetriesExceeded : PyDict :=
  [("success", .vBool false), ("error", .vStr "Max retries exceeded"),
   ("action_needed", .vStr "manual_intervention")]

/-- `BuildMonitorAgent._retry_build` with `settings.max_retries` made an
explicit parameter. -/
def retryBuild (max_retries : Nat) (env : BMEnv) (build_id : Option Int)
    (st : BMState) : PyDict × BMState :=
  match build_id with
  | none => ([("success", .vBool false), ("error", .vStr "Build not being monitored")], st)
  | some bid =>
    match lookupRef st.refs bid with
    | none => ([("success", .vBool false), ("error", .vStr "Build not being monitored")], st)
    | some ref =>
      let build_info := st.heap ref
      if max_retries ≤ build_info.retry_count then
        (maxRetriesExceeded,
         appendLog st "decision"
           ("Max retries reached for build " ++ toString bid ++ ", escalating"))
      else
        match env.getBuild bid with
        | none => ([("success", .vBool false), ("error", .vStr "Original build not found")], st)
        | some original_build =>
          match env.queueBuild original_build.definition
              (String.replace original_build.source_branch "refs/heads/" "") with
          | none => ([("success", .vBool false), ("error", .vStr "Failed to queue retry build")], st)
          | some new_build =>
            let newInfo :=
              { build_info with retry_count := build_info.retry_count + 1 }
            let st1 : BMState :=
              { st with heap := updFn st.heap ref newInfo,
                        refs := setRef st.refs new_build.id ref }
            let st2 := appendLog st1 "action"
              ("Retried build " ++ toString bid ++ " as " ++ toString new_build.id
                ++ " (attempt " ++ toString newInfo.retry_count ++ ")")
            ([("success", .vBool true), ("original_build_id", .vInt bid),
              ("new_build_id", .vInt new_build.id),
              ("retry_count", .vInt (newInfo.retry_count : Int))], st2)

/-- `BuildMonitorAgent._monitor_pr_build` (`asyncio.sleep` has no
observable effect in the model). -/
def monitorPrBuild (max_retries : Nat) (env : BMEnv) (pr_id : Option PyVal)
    (build_id : Option Int) (st : BMState) : PyDict × BMState :=
  let bid := build_id.getD 12345
  let st1 := appendLog st "observation" ("Monitoring build for PR " ++ pyOptStr pr_id)
  let r := st1.nextRef
  let freshInfo : BuildInfo := { pr_id := pr_id, status := "inProgress", retry_count := 0 }
  let st2 : BMState :=
    { st1 with heap := updFn st1.heap r freshInfo,
               refs := setRef st1.refs bid r,
               nextRef := r + 1 }
  match env.getBuild bid with
  | none => ([("success", .vBool false),
              ("error", .vStr ("Build " ++ toString bid ++ " not found"))], st2)
  | some build =>
    if build.result = "failed" then
      let analysis := env.analyzeBuild bid
      if analysis.1 then retryBuild max_retries env (some bid) st2
      else ([("success", .vBool false), ("build_id", .vInt bid),
             ("analysis", analysis.2), ("action_needed", .vStr "code_fix")], st2)
    else
      ([("success", .vBool true), ("build_id", .vInt bid),
        ("result", .vStr build.result)], st2)

/-- State after `k` consecutive `retry_build` requests naming the same
original build id. -/
def retryRepeat (max_retries : Nat) (env : BMEnv) (bid : Int) (st : BMState) :
    Nat → BMState
  | 0 => st
  | k + 1 => (retryBuild max_retries env (some bid) (retryRepeat max_retries env bid st k)).2

/-- C2 counterexample input: one stored entry of type `"observation"`. -/
def cexEntryC2 : MemoryEntry :=
  { agent_id := "a", timestamp := 5, memory_type := "observation",
    content := "c", metadata := [], session_id := none }

/-- C2 counterexample input: the store holding only `cexEntryC2`. -/
def cexStoreC2 : ClickHouseStore :=
  { agent_memory := [cexEntryC2], agent_actions := [], work_items := [] }

/-- C1/C10 witness input: the original build as returned by the ADO
client. -/
def cOb : BuildRec :=
  { build_number := "20240101.1", status := "completed", result := "failed",
    source_branch := "refs/heads/main", definition := some "CI" }

/-- C1/C10 witness input: the freshly queued retry build. -/
def cNb : QueuedBuild := { id := 67890 }

/-- C1 witness input: an ADO environment whose lookups and queueing
succeed. -/
def cBMEnv : BMEnv :=
  { getBuild := fun _ => some cOb, queueBuild := fun _ _ => some cNb,
    analyzeBuild := fun _ => (true, .vNone) }

/-- C1/C10 witness input: the tracking record installed by
`monitor_pr_build`. -/
def cBMInfo : BuildInfo :=
  { pr_id := some (.vInt 1), status := "inProgress", retry_count := 0 }

/-- C1 witness input: monitor state tracking build 12345. -/
def cBMSt : BMState :=
  { refs := [(12345, 0)], heap := fun _ => cBMInfo, nextRef := 1, memLog := [] }

/-- C10 witness input: an ADO environment whose build 67890 completed
without failing. -/
def c10Ob : BuildRec :=
  { build_number := "20240101.2", status := "completed", result := "succeeded",
    source_branch := "refs/heads/main", definition := some "CI" }

/-- C10 witness input: ADO environment (lookups succeed, builds are not
failed, queueing succeeds). -/
def c10Env : BMEnv :=
  { getBuild := fun _ => some c10Ob, queueBuild := fun _ _ => some cNb,
    analyzeBuild := fun _ => (false, .vNone) }

/-- C10 witness input: monitor state tracking build 12345. -/
def c10St : BMState :=
  { refs := [(12345, 0)], heap := fun _ => cBMInfo, nextRef := 1, memLog := [] }

/-- C8 witness input: the agent identity. -/
def c8Meta : AgentMeta :=
  { agent_id := "build_monitor", name := "Build Monitor Agent",
    system_prompt := "You are the Build Monitor Agent.", session_id := "session-1" }

/-- C8 witness input: an LLM provider that raises on `generate`. -/
def c8EnvFail : ThinkEnv := { generate := fun _ _ => .error "boom", latency := 5 }

/-- Shared witness input: a fresh agent state over an empty store. -/
def cSt0 : AgentState :=
  { store := { agent_memory := [], agent_actions := [], work_items := [] }, clock := 0 }

/-- The single failed action record the C8 witness expects `think` to
write. -/
def c8FailRec : ActionLogRecord :=
  { agent_id := "build_monitor", timestamp := 5, action_type := "think",
    target := "llm", parameters := [("message", .vStr "hello")],
    result := .vDict [("error", .vStr "boom")], success := false,
    duration_ms := 5, session_id := some "session-1" }

/-- Shared witness input: the orchestrator's agent identity. -/
def cOrchMeta : AgentMeta :=
  { agent_id := "orchestrator", name := "Orchestrator Agent",
    system_prompt := "You are the Orchestrator Agent.", session_id := "session-0" }

/-- Shared witness input: a fresh orchestrator with an empty registry. -/
def cOrch : Orchestrator := { meta := cOrchMeta, registry := [] }

/-- Shared witness input: the LLM's canned reply. -/
def cOrchResp : LLMResponseM :=
  { content := "analysis", model := "m", tokens_used := some 10 }

/-- Shared witness input: orchestrator collaborators (LLM succeeds, no
work items). -/
def cOrchEnv : OrchEnv :=
  { llm := { generate := fun _ _ => .ok cOrchResp, latency := 1 },
    getWorkItem := fun _ => none,
    splitFeature := fun _ _ => [] }

/-- C6 witness input: a registered release-manager behaviour. -/
def c6Rel : PyDict → PyDict := fun _ => [("success", .vBool true), ("release_id", .vInt 9)]

/-- C6 witness input: an orchestrator with only a release manager
registered. -/
def c6Orch : Orchestrator := { meta := cOrchMeta, registry := [("release_manager", c6Rel)] }

/-- C7 witness input: the LLM's analysis answer. -/
def c7Resp : LLMResponseM := { content := "plan", model := "m", tokens_used := some 3 }

/-- C7 witness input: a work item with title and description. -/
def c7WI : PyDict := [("title", .vStr "T"), ("description", .vStr "D")]

/-- C7 witness input: collaborators where story 42 exists and the LLM
succeeds. -/
def c7Env : OrchEnv :=
  { llm := { generate := fun _ _ => .ok c7Resp, latency := 2 },
    getWorkItem := fun _ => some c7WI,
    splitFeature := fun _ _ => [] }

/-- C7 witness input: an orchestrator with only a code-repository agent
registered (no requirements agent). -/
def c7Orch : Orchestrator :=
  { meta := cOrchMeta,
    registry := [("code_repo_web", fun _ => [("success", .vBool true)])] }

/-- C2 witness input: a recent entry of agent `"a"`. -/
def c2WEntry : MemoryEntry :=
  { agent_id := "a", timestamp := 5, memory_type := "observation",
    content := "hello", metadata := [], session_id := some "s1" }

/-- C2 witness input: store holding only `c2WEntry`. -/
def c2WSt : ClickHouseStore :=
  { agent_memory := [c2WEntry], agent_actions := [], work_items := [] }

/-- C3 witness input: a successful `think` action. -/
def c3Act1 : ActionLogRecord :=
  { agent_id := "a", timestamp := 5, action_type := "think", target := "llm",
    parameters := [], result := .vNone, success := true, duration_ms := 10,
    session_id := none }

/-- C3 witness input: a failed `think` action. -/
def c3Act2 : ActionLogRecord :=
  { agent_id := "a", timestamp := 6, action_type := "think", target := "llm",
    parameters := [], result := .vNone, success := false, duration_ms := 20,
    session_id := none }

/-- C3 witness input: store with one successful and one failed `think`. -/
def c3St : ClickHouseStore :=
  { agent_memory := [], agent_actions := [c3Act1, c3Act2], work_items := [] }

/-- C3 witness value: the mean duration of the two `think` rows,
written as the aggregation computes it ((10 + 20) / 2). -/
def c3Avg : ℚ := (((10 : Nat) : ℚ) + (((20 : Nat) : ℚ) + 0)) / ((2 : Nat) : ℚ)

/-- C3 witness value: the expected `think` bucket. -/
def c3Stats : ActionStats :=
  { count := 2, avg_duration_ms := c3Avg, successful := 1, failed := 1 }

/-- C4 witness input: a store with no work items yet. -/
def c4St : ClickHouseStore :=
  { agent_memory := [], agent_actions := [], work_items := [] }

/-- C9 witness input: the spec scenario's matching entry. -/
def c9E1 : MemoryEntry :=
  { agent_id := "build_monitor", timestamp := 1, memory_type := "observation",
    content := "build failed: timeout", metadata := [], session_id := none }

/-- C9 witness input: the spec scenario's non-matching entry. -/
def c9E2 : MemoryEntry :=
  { agent_id := "build_monitor", timestamp := 2, memory_type := "observation",
    content := "build succeeded", metadata := [], session_id := none }

/-- C9 witness input: store with the two scenario entries. -/
def c9St : ClickHouseStore :=
  { agent_memory := [c9E1, c9E2], agent_actions := [], work_items := [] }

/-! ## Lemmas and claim theorems -/

theorem isInfixB_iff (n : List Char) : ∀ h : List Char, isInfixB n h = true ↔ n <:+: h := by
  intro h
  induction h with
  | nil =>
    simp [isInfixB, List.isEmpty_iff]
  | cons c t ih =>
    simp only [isInfixB, Bool.or_eq_true, ih, List.isPrefixOf_iff_prefix]
    exact (List.infix_cons_iff).symm

theorem sortByTsDesc_perm {α : Type} (ts : α → Int) (l : List α) :
    (sortByTsDesc ts l).Perm l :=
  List.perm_insertionSort _ l

theorem sortByTsDesc_sorted {α : Type} (ts : α → Int) (l : List α) :
    (sortByTsDesc ts l).Sorted (fun a b => ts b ≤ ts a) := by
  haveI : IsTotal α (fun a b => ts b ≤ ts a) := ⟨fun a b => le_total (ts b) (ts a)⟩
  haveI : IsTrans α (fun a b => ts b ≤ ts a) := ⟨fun _ _ _ h1 h2 => le_trans h2 h1⟩
  exact List.sorted_insertionSort _ l

theorem length_filter_split {α : Type} (p : α → Bool) (l : List α) :
    l.length = (l.filter p).length + (l.filter (fun a => !p a)).length := by
  induction l with
  | nil => rfl
  | cons a t ih =>
    by_cases h : p a = true <;> simp [List.filter_cons, h, ih] <;> omega

theorem sortByTsDesc_head_max {α : Type} (ts : α → Int) (l : List α) (x : α)
    (hx : x ∈ l) (hmax : ∀ y ∈ l, y ≠ x → ts y < ts x) :
    (sortByTsDesc ts l).head? = some x := by
  have hperm := sortByTsDesc_perm ts l
  have hsort := sortByTsDesc_sorted ts l
  have hx' : x ∈ sortByTsDesc ts l := hperm.mem_iff.mpr hx
  rcases hl : sortByTsDesc ts l with _ | ⟨h, t⟩
  · rw [hl] at hx'; simp at hx'
  · rw [hl] at hx' hsort hperm
    by_cases he : h = x
    · simp [he]
    · exfalso
      have hht : x ∈ t := by
        rcases List.mem_cons.mp hx' with h1 | h1
        · exact absurd h1.symm he
        · exact h1
      have h1 : ts x ≤ ts h := (List.sorted_cons.mp hsort).1 x hht
      have hmem : h ∈ l := hperm.mem_iff.mp (List.mem_cons_self h t)
      have h2 : ts h < ts x := hmax h hmem he
      omega

/-- **C2** (amended: a `memory_type`/`session_id` filter given as the empty
string is treated by the code as absent, so "provided filter" means a
provided non-empty value).  Every entry returned by `get_recent_memories`
is a stored entry of the requested agent whose age is at most `hours`
hours and which matches every provided non-empty filter; the result is
sorted newest-first, has at most `limit` entries, and is the empty list —
not an error — when nothing matches. -/
theorem get_recent_memories_contract (store : ClickHouseStore) (now : Int)
    (agent_id : String) (limit : Nat) (memory_type session_id : Option String)
    (hours : Nat) :
    (∀ e ∈ get_recent_memories store now agent_id limit memory_type session_id hours,
       e ∈ store.agent_memory ∧
       e.agent_id = agent_id ∧
       now - e.timestamp ≤ (hours : Int) * msPerHour ∧
       (∀ t, memory_type = some t → t ≠ "" → e.memory_type = t) ∧
       (∀ s, session_id = some s → s ≠ "" → e.session_id = some s)) ∧
    (get_recent_memories store now agent_id limit memory_type session_id hours).Sorted
      (fun a b => b.timestamp ≤ a.timestamp) ∧
    (get_recent_memories store now agent_id limit memory_type session_id hours).length ≤ limit ∧
    ((∀ e ∈ store.agent_memory,
        memMatchesRecent agent_id memory_type session_id now hours e = false) →
      get_recent_memories store now agent_id limit memory_type session_id hours = []) := by
  refine ⟨?_, ?_, ?_, ?_⟩
  · intro e he
    have h1 : e ∈ sortByTsDesc (fun e => e.timestamp)
        (store.agent_memory.filter (memMatchesRecent agent_id memory_type session_id now hours)) :=
      List.mem_of_mem_take he
    have h2 := (sortByTsDesc_perm _ _).mem_iff.mp h1
    obtain ⟨hmem, hp⟩ := List.mem_filter.mp h2
    simp only [memMatchesRecent, Bool.and_eq_true, beq_iff_eq, decide_eq_true_eq] at hp
    obtain ⟨⟨⟨ha, htime⟩, hmt⟩, hsid⟩ := hp
    refine ⟨hmem, ha, by omega, ?_, ?_⟩
    · intro t ht hne
      subst ht
      have hmt' : (if t = "" then true else e.memory_type == t) = true := hmt
      rw [if_neg hne] at hmt'
      exact beq_iff_eq.mp hmt'
    · intro s hs hne
      subst hs
      have hsid' : (if s = "" then true else e.session_id == some s) = true := hsid
      rw [if_neg hne] at hsid'
      exact beq_iff_eq.mp hsid'
  · exact ((sortByTsDesc_sorted _ _).sublist (List.take_sublist _ _))
  · exact List.length_take_le _ _
  · intro hnone
    have : store.agent_memory.filter
        (memMatchesRecent agent_id memory_type session_id now hours) = [] :=
      List.filter_eq_nil_iff.mpr (fun e he => by simp [hnone e he])
    simp [get_recent_memories, this, sortByTsDesc, List.insertionSort]

/-- **C2 counterexample**: with the provided filter `memory_type = some ""`,
`get_recent_memories` returns the stored entry even though its
`memory_type` is `"observation" ≠ ""` — the entry does not match the
provided filter, refuting the claim as stated (the code only applies a
filter whose value is truthy). -/
theorem get_recent_memories_empty_filter_cex :
    get_recent_memories cexStoreC2 10 "a" 10 (some "") none 1 = [cexEntryC2] ∧
    cexEntryC2.memory_type ≠ "" := by
  exact ⟨rfl, by decide⟩

/-- **C3**: each `action_type` bucket returned by `get_agent_statistics`
satisfies `count = successful + failed`, where `successful` (resp.
`failed`) counts the agent's in-window records with `success` true (resp.
false) for that action type; an agent with no in-window records yields the
empty mapping, not an error. -/
theorem get_agent_statistics_contract (store : ClickHouseStore) (now : Int)
    (agent_id : String) (hours : Nat) :
    (∀ t s, (t, s) ∈ get_agent_statistics store now agent_id hours →
       s.count = s.successful + s.failed ∧
       s.count = ((store.agent_actions.filter (actionInWindow agent_id now hours)).filter
         (fun r => r.action_type == t)).length ∧
       s.successful = (((store.agent_actions.filter (actionInWindow agent_id now hours)).filter
         (fun r => r.action_type == t)).filter (fun r => r.success)).length ∧
       s.failed = (((store.agent_actions.filter (actionInWindow agent_id now hours)).filter
         (fun r => r.action_type == t)).filter (fun r => !r.success)).length) ∧
    (store.agent_actions.filter (actionInWindow agent_id now hours) = [] →
      get_agent_statistics store now agent_id hours = []) := by
  constructor
  · intro t s hts
    simp only [get_agent_statistics, List.mem_map] at hts
    obtain ⟨t', _, heq⟩ := hts
    obtain ⟨ht, hs⟩ := Prod.mk.injEq .. ▸ heq
    subst ht
    subst hs
    refine ⟨?_, rfl, rfl, rfl⟩
    exact length_filter_split (fun r => r.success)
      ((store.agent_actions.filter (actionInWindow agent_id now hours)).filter
        (fun r => r.action_type == t'))
  · intro hempty
    simp [get_agent_statistics, hempty]

/-- **C4**: storing a work-item snapshot at a time later than every existing
row and looking it up returns exactly the written fields; a second store
for the same id at a still later time makes the lookup return only the
newer snapshot; looking up an id never stored returns `none`. -/
theorem work_item_roundtrip (store : ClickHouseStore) (t1 t2 : Int)
    (id ty1 ti1 d1 s1 : String) (aa1 : Option String) (md1 : Option PyDict)
    (ty2 ti2 d2 s2 : String) (aa2 : Option String) (md2 : Option PyDict)
    (hfresh : ∀ r ∈ store.work_items, r.timestamp < t1) (h12 : t1 < t2) :
    get_work_item (store_work_item store t1 id ty1 ti1 d1 s1 aa1 md1) id =
      some { work_item_id := id, timestamp := t1, item_type := ty1, title := ti1,
             description := d1, state := s1, assigned_agent := aa1,
             metadata := md1.getD [] } ∧
    get_work_item (store_work_item (store_work_item store t1 id ty1 ti1 d1 s1 aa1 md1)
        t2 id ty2 ti2 d2 s2 aa2 md2) id =
      some { work_item_id := id, timestamp := t2, item_type := ty2, title := ti2,
             description := d2, state := s2, assigned_agent := aa2,
             metadata := md2.getD [] } ∧
    ((∀ r ∈ store.work_items, r.work_item_id ≠ id) → get_work_item store id = none) := by
  refine ⟨?_, ?_, ?_⟩
  · apply sortByTsDesc_head_max
    · refine List.mem_filter.mpr ⟨List.mem_append_right _ (List.mem_singleton.mpr rfl), ?_⟩
      exact beq_self_eq_true id
    · intro y hy hne
      obtain ⟨hymem, _⟩ := List.mem_filter.mp hy
      rcases List.mem_append.mp hymem with h1 | h1
      · exact hfresh y h1
      · exact absurd (List.mem_singleton.mp h1) hne
  · apply sortByTsDesc_head_max
    · refine List.mem_filter.mpr ⟨List.mem_append_right _ (List.mem_singleton.mpr rfl), ?_⟩
      exact beq_self_eq_true id
    · intro y hy hne
      show y.timestamp < t2
      obtain ⟨hymem, _⟩ := List.mem_filter.mp hy
      rcases List.mem_append.mp hymem with h1 | h1
      · rcases List.mem_append.mp h1 with h2 | h2
        · have := hfresh y h2; omega
        · rw [List.mem_singleton.mp h2]; exact h12
      · exact absurd (List.mem_singleton.mp h1) hne
  · intro hnever
    have : store.work_items.filter (fun r => r.work_item_id == id) = [] := by
      apply List.filter_eq_nil_iff.mpr
      intro r hr
      simp [hnever r hr]
    simp [get_work_item, this, sortByTsDesc, List.insertionSort]

/-- **C9**: `search_memories` returns only stored entries of the requested
agent whose content contains the query as a case-insensitive substring,
newest first, capped at `limit`; when the matching entries fit the cap the
result is exactly (a reordering of) them, and when nothing matches the
result is the empty list, not an error. -/
theorem search_memories_contract (store : ClickHouseStore) (agent_id query : String)
    (limit : Nat) :
    (∀ e ∈ search_memories store agent_id query limit,
       e ∈ store.agent_memory ∧ e.agent_id = agent_id ∧
       strLower query <:+: strLower e.content) ∧
    (search_memories store agent_id query limit).Sorted
      (fun a b => b.timestamp ≤ a.timestamp) ∧
    (search_memories store agent_id query limit).length ≤ limit ∧
    ((store.agent_memory.filter
        (fun e => e.agent_id == agent_id && containsCI e.content query)).length ≤ limit →
      (search_memories store agent_id query limit).Perm
        (store.agent_memory.filter
          (fun e => e.agent_id == agent_id && containsCI e.content query))) ∧
    ((∀ e ∈ store.agent_memory,
        ¬ (e.agent_id = agent_id ∧ strLower query <:+: strLower e.content)) →
      search_memories store agent_id query limit = []) := by
  refine ⟨?_, ?_, ?_, ?_, ?_⟩
  · intro e he
    have h1 := List.mem_of_mem_take he
    have h2 := (sortByTsDesc_perm _ _).mem_iff.mp h1
    obtain ⟨hmem, hp⟩ := List.mem_filter.mp h2
    simp only [Bool.and_eq_true, beq_iff_eq] at hp
    exact ⟨hmem, hp.1, (isInfixB_iff _ _).mp hp.2⟩
  · exact ((sortByTsDesc_sorted _ _).sublist (List.take_sublist _ _))
  · exact List.length_take_le _ _
  · intro hlen
    have hperm := sortByTsDesc_perm (fun e => e.timestamp)
      (store.agent_memory.filter (fun e => e.agent_id == agent_id && containsCI e.content query))
    have hl : (sortByTsDesc (fun e => e.timestamp)
        (store.agent_memory.filter
          (fun e => e.agent_id == agent_id && containsCI e.content query))).length ≤ limit := by
      rw [hperm.length_eq]; exact hlen
    rw [search_memories, List.take_of_length_le hl]
    exact hperm
  · intro hnone
    have : store.agent_memory.filter
        (fun e => e.agent_id == agent_id && containsCI e.content query) = [] := by
      apply List.filter_eq_nil_iff.mpr
      intro e he
      intro hc
      simp only [Bool.and_eq_true, beq_iff_eq] at hc
      exact hnone e he ⟨hc.1, (isInfixB_iff _ _).mp hc.2⟩
    simp [search_memories, this, sortByTsDesc, List.insertionSort]

theorem find?_setMap_ne (refs : List (Int × Nat)) (k k' : Int) (v : Nat)
    (h : k' ≠ k) :
    (refs.map (fun kv => if kv.1 == k then (k, v) else kv)).find? (fun kv => kv.1 == k') =
      refs.find? (fun kv => kv.1 == k') := by
  induction refs with
  | nil => rfl
  | cons a t ih =>
    by_cases hak : a.1 = k
    · rw [List.map_cons, if_pos (by simp [hak]),
        List.find?_cons_of_neg _ (by simp [Ne.symm h]),
        List.find?_cons_of_neg _ (by simp [hak, Ne.symm h]), ih]
    · rw [List.map_cons, if_neg (by simp [hak])]
      by_cases ha' : a.1 = k'
      · rw [List.find?_cons_of_pos _ (by simp [ha']),
          List.find?_cons_of_pos _ (by simp [ha'])]
      · rw [List.find?_cons_of_neg _ (by simp [ha']),
          List.find?_cons_of_neg _ (by simp [ha']), ih]

theorem find?_setMap_self (refs : List (Int × Nat)) (k : Int) (v : Nat)
    (h : refs.any (fun kv => kv.1 == k)) :
    (refs.map (fun kv => if kv.1 == k then (k, v) else kv)).find? (fun kv => kv.1 == k) =
      some (k, v) := by
  induction refs with
  | nil => simp at h
  | cons a t ih =>
    by_cases hak : a.1 = k
    · rw [List.map_cons, if_pos (by simp [hak]),
        List.find?_cons_of_pos _ (by simp)]
    · rw [List.map_cons, if_neg (by simp [hak]),
        List.find?_cons_of_neg _ (by simp [hak])]
      have ht : t.any (fun kv => kv.1 == k) := by
        rcases List.any_eq_true.mp h with ⟨x, hx, hpx⟩
        rcases List.mem_cons.mp hx with h1 | h1
        · subst h1; exact absurd (by simpa using hpx) hak
        · exact List.any_eq_true.mpr ⟨x, h1, hpx⟩
      exact ih ht

theorem find?_append_nomatch {α : Type} (p : α → Bool) (l₁ l₂ : List α)
    (h : ∀ a ∈ l₁, ¬ p a) : (l₁ ++ l₂).find? p = l₂.find? p := by
  induction l₁ with
  | nil => rfl
  | cons a t ih =>
    rw [List.cons_append, List.find?_cons_of_neg _ (h a (List.mem_cons_self a t))]
    exact ih (fun x hx => h x (List.mem_cons_of_mem a hx))

theorem lookupRef_setRef_self (refs : List (Int × Nat)) (k : Int) (v : Nat) :
    lookupRef (setRef refs k v) k = some v := by
  unfold setRef lookupRef
  by_cases hany : refs.any (fun kv => kv.1 == k)
  · rw [if_pos hany, find?_setMap_self refs k v hany]; rfl
  · rw [if_neg hany, find?_append_nomatch _ refs [(k, v)]
      (fun a ha hpa => hany (List.any_eq_true.mpr ⟨a, ha, hpa⟩)),
      List.find?_cons_of_pos _ (by simp)]
    rfl

theorem find?_append_single_ne (refs : List (Int × Nat)) (k k' : Int) (v : Nat)
    (h : k' ≠ k) :
    List.find? (fun kv => kv.1 == k') (refs ++ [(k, v)]) =
      List.find? (fun kv => kv.1 == k') refs := by
  induction refs with
  | nil =>
    rw [List.nil_append, List.find?_cons_of_neg _ (by simp [Ne.symm h])]
  | cons a t ih =>
    by_cases ha' : a.1 = k'
    · rw [List.cons_append, List.find?_cons_of_pos _ (by simp [ha']),
        List.find?_cons_of_pos _ (by simp [ha'])]
    · rw [List.cons_append, List.find?_cons_of_neg _ (by simp [ha']),
        List.find?_cons_of_neg _ (by simp [ha']), ih]

theorem lookupRef_setRef_ne (refs : List (Int × Nat)) (k k' : Int) (v : Nat)
    (h : k' ≠ k) : lookupRef (setRef refs k v) k' = lookupRef refs k' := by
  unfold setRef lookupRef
  by_cases hany : refs.any (fun kv => kv.1 == k)
  · rw [if_pos hany, find?_setMap_ne refs k k' v h]
  · rw [if_neg hany, find?_append_single_ne refs k k' v h]

theorem lookupRef_setRef_preserve (refs : List (Int × Nat)) (k0 k1 : Int) (v : Nat)
    (h : lookupRef refs k0 = some v) : lookupRef (setRef refs k1 v) k0 = some v := by
  by_cases he : k0 = k1
  · subst he; exact lookupRef_setRef_self refs k0 v
  · rw [lookupRef_setRef_ne refs k1 k0 v he]; exact h

theorem retryBuild_success_step (N : Nat) (env : BMEnv) (bid : Int) (r : Nat)
    (ob : BuildRec) (nb : QueuedBuild) (st : BMState)
    (hreg : lookupRef st.refs bid = some r)
    (hc : (st.heap r).retry_count < N)
    (hget : env.getBuild bid = some ob)
    (hq : env.queueBuild ob.definition
      (String.replace ob.source_branch "refs/heads/" "") = some nb) :
    retryBuild N env (some bid) st =
      ([("success", .vBool true), ("original_build_id", .vInt bid),
        ("new_build_id", .vInt nb.id),
        ("retry_count", .vInt (((st.heap r).retry_count + 1 : Nat) : Int))],
       { refs := setRef st.refs nb.id r,
         heap := updFn st.heap r
           { st.heap r with retry_count := (st.heap r).retry_count + 1 },
         nextRef := st.nextRef,
         memLog := st.memLog ++ [("action",
           "Retried build " ++ toString bid ++ " as " ++ toString nb.id
             ++ " (attempt " ++ toString ((st.heap r).retry_count + 1) ++ ")")] }) := by
  simp only [retryBuild, hreg]
  rw [if_neg (Nat.not_le.mpr hc)]
  simp only [hget, hq, appendLog]

theorem retryBuild_exhausted (N : Nat) (env : BMEnv) (bid : Int) (r : Nat)
    (st : BMState)
    (hreg : lookupRef st.refs bid = some r)
    (hc : N ≤ (st.heap r).retry_count) :
    retryBuild N env (some bid) st =
      (maxRetriesExceeded,
       { st with memLog := st.memLog ++ [("decision",
           "Max retries reached for build " ++ toString bid ++ ", escalating")] }) := by
  simp only [retryBuild, hreg]
  rw [if_pos hc]
  rfl

theorem monitorPrBuild_notfailed (N : Nat) (env : BMEnv) (pr : Option PyVal)
    (id2 : Int) (b2 : BuildRec) (st : BMState)
    (hgb : env.getBuild id2 = some b2) (hres : b2.result ≠ "failed") :
    monitorPrBuild N env pr (some id2) st =
      ([("success", .vBool true), ("build_id", .vInt id2), ("result", .vStr b2.result)],
       { refs := setRef st.refs id2 st.nextRef,
         heap := updFn st.heap st.nextRef
           { pr_id := pr, status := "inProgress", retry_count := 0 },
         nextRef := st.nextRef + 1,
         memLog := st.memLog ++
           [("observation", "Monitoring build for PR " ++ pyOptStr pr)] }) := by
  simp only [monitorPrBuild, appendLog, Option.getD, hgb]
  rw [if_neg hres]

theorem retryRepeat_inv (N : Nat) (env : BMEnv) (bid : Int) (r : Nat)
    (ob : BuildRec) (nb : QueuedBuild) (st0 : BMState)
    (hreg : lookupRef st0.refs bid = some r)
    (h0 : (st0.heap r).retry_count = 0)
    (hget : env.getBuild bid = some ob)
    (hq : env.queueBuild ob.definition
      (String.replace ob.source_branch "refs/heads/" "") = some nb) :
    ∀ k, k ≤ N →
      lookupRef (retryRepeat N env bid st0 k).refs bid = some r ∧
      (retryRepeat N env bid st0 k).heap r = { st0.heap r with retry_count := k } := by
  intro k
  induction k with
  | zero =>
    intro _
    refine ⟨hreg, ?_⟩
    conv_rhs => rw [← h0]
    rfl
  | succ k ih =>
    intro hk
    obtain ⟨ih1, ih2⟩ := ih (by omega)
    have hstep := retryBuild_success_step N env bid r ob nb
      (retryRepeat N env bid st0 k) ih1 (by rw [ih2]; show k < N; omega) hget hq
    constructor
    · show lookupRef (retryBuild N env (some bid) (retryRepeat N env bid st0 k)).2.refs bid = some r
      rw [hstep]
      exact lookupRef_setRef_preserve _ bid nb.id r ih1
    · show (retryBuild N env (some bid) (retryRepeat N env bid st0 k)).2.heap r =
        { st0.heap r with retry_count := k + 1 }
      rw [hstep]
      simp [updFn, ih2]

/-- **C1**: for a build id registered for monitoring (its tracking record
has `retry_count = 0`), with the original-build lookup and the queue call
succeeding, each of the first `N = max_retries` retry requests for that
original id succeeds and advances the tracked retry count by one; the
`(N+1)`-th request returns exactly
`{success: False, error: "Max retries exceeded",
action_needed: "manual_intervention"}` for every environment — so
regardless of build outcome and without queuing a new build (the tracking
state is unchanged, only the escalation decision is recorded). -/
theorem buildMonitor_retry_budget (N : Nat) (env : BMEnv) (st0 : BMState)
    (bid : Int) (r : Nat) (ob : BuildRec) (nb : QueuedBuild)
    (hreg : lookupRef st0.refs bid = some r)
    (h0 : (st0.heap r).retry_count = 0)
    (hget : env.getBuild bid = some ob)
    (hq : env.queueBuild ob.definition
      (String.replace ob.source_branch "refs/heads/" "") = some nb) :
    (∀ k, k < N →
       (retryBuild N env (some bid) (retryRepeat N env bid st0 k)).1 =
         [("success", .vBool true), ("original_build_id", .vInt bid),
          ("new_build_id", .vInt nb.id),
          ("retry_count", .vInt ((k + 1 : Nat) : Int))] ∧
       ((retryRepeat N env bid st0 (k + 1)).heap r).retry_count = k + 1) ∧
    (∀ env' : BMEnv,
       retryBuild N env' (some bid) (retryRepeat N env bid st0 N) =
         (maxRetriesExceeded,
          { retryRepeat N env bid st0 N with
              memLog := (retryRepeat N env bid st0 N).memLog ++
                [("decision", "Max retries reached for build " ++ toString bid
                    ++ ", escalating")] })) := by
  constructor
  · intro k hk
    obtain ⟨i1, i2⟩ := retryRepeat_inv N env bid r ob nb st0 hreg h0 hget hq k (le_of_lt hk)
    have hstep := retryBuild_success_step N env bid r ob nb
      (retryRepeat N env bid st0 k) i1 (by rw [i2]; exact hk) hget hq
    constructor
    · rw [hstep, i2]
    · obtain ⟨_, j2⟩ := retryRepeat_inv N env bid r ob nb st0 hreg h0 hget hq (k + 1) hk
      rw [j2]
  · intro env'
    obtain ⟨i1, i2⟩ := retryRepeat_inv N env bid r ob nb st0 hreg h0 hget hq N (le_refl N)
    exact retryBuild_exhausted N env' bid r _ i1 (by rw [i2])

/-- Witness for C1 at `N = 2`, build 12345: the first retry succeeds with
`retry_count = 1`, and the third request is the exact escalation failure. -/
theorem buildMonitor_retry_budget_witness :
    (retryBuild 2 cBMEnv (some 12345) (retryRepeat 2 cBMEnv 12345 cBMSt 0)).1 =
      [("success", .vBool true), ("original_build_id", .vInt 12345),
       ("new_build_id", .vInt 67890), ("retry_count", .vInt 1)] ∧
    (retryBuild 2 cBMEnv (some 12345) (retryRepeat 2 cBMEnv 12345 cBMSt 2)).1 =
      maxRetriesExceeded := by
  have h := buildMonitor_retry_budget 2 cBMEnv cBMSt 12345 0 cOb cNb rfl rfl rfl rfl
  exact ⟨(h.1 0 (by decide)).1, by rw [h.2 cBMEnv]⟩

/-- **C10** (implicit): a successful retry stores the *same* mutable
tracking record under both the original and the new build id (aliasing,
not copying), so a further retry named by either id advances the single
shared counter; but a later `monitor_pr_build` call for either id installs
a fresh record with `retry_count = 0` under that id, breaking the alias —
the other id keeps the old record — and resetting the budget for that
key. -/
theorem buildMonitor_alias_reset (N : Nat) (env : BMEnv) (st : BMState)
    (bid : Int) (r : Nat) (ob : BuildRec) (nb : QueuedBuild)
    (hreg : lookupRef st.refs bid = some r)
    (hr : r < st.nextRef)
    (hc : (st.heap r).retry_count < N)
    (hget : env.getBuild bid = some ob)
    (hq : env.queueBuild ob.definition
      (String.replace ob.source_branch "refs/heads/" "") = some nb)
    (st1 : BMState) (hst1 : st1 = (retryBuild N env (some bid) st).2) :
    (lookupRef st1.refs bid = some r ∧
     lookupRef st1.refs nb.id = some r ∧
     (st1.heap r).retry_count = (st.heap r).retry_count + 1) ∧
    (∀ id2 ob2 nb2, lookupRef st1.refs id2 = some r →
       (st1.heap r).retry_count < N →
       env.getBuild id2 = some ob2 →
       env.queueBuild ob2.definition
         (String.replace ob2.source_branch "refs/heads/" "") = some nb2 →
       ((retryBuild N env (some id2) st1).2.heap r).retry_count =
         (st.heap r).retry_count + 2) ∧
    (∀ id2 pr b2 st2, lookupRef st1.refs id2 = some r →
       env.getBuild id2 = some b2 → b2.result ≠ "failed" →
       st2 = (monitorPrBuild N env pr (some id2) st1).2 →
       lookupRef st2.refs id2 = some st1.nextRef ∧
       st1.nextRef ≠ r ∧
       st2.heap st1.nextRef = { pr_id := pr, status := "inProgress", retry_count := 0 } ∧
       (∀ id3, id3 ≠ id2 → lookupRef st1.refs id3 = some r →
          lookupRef st2.refs id3 = some r ∧ st2.heap r = st1.heap r)) := by
  have hstep := retryBuild_success_step N env bid r ob nb st hreg hc hget hq
  have hrefs : st1.refs = setRef st.refs nb.id r := by rw [hst1, hstep]
  have hheap : st1.heap = updFn st.heap r
      { st.heap r with retry_count := (st.heap r).retry_count + 1 } := by
    rw [hst1, hstep]
  have hnext : st1.nextRef = st.nextRef := by rw [hst1, hstep]
  refine ⟨⟨?_, ?_, ?_⟩, ?_, ?_⟩
  · rw [hrefs]; exact lookupRef_setRef_preserve st.refs bid nb.id r hreg
  · rw [hrefs]; exact lookupRef_setRef_self st.refs nb.id r
  · rw [hheap]; simp [updFn]
  · intro id2 ob2 nb2 h1 h2 h3 h4
    have hstep2 := retryBuild_success_step N env id2 r ob2 nb2 st1 h1 h2 h3 h4
    rw [hstep2]
    simp [updFn, hheap]
  · intro id2 pr b2 st2 h1 hgb hres hst2
    have hmon := monitorPrBuild_notfailed N env pr id2 b2 st1 hgb hres
    have h2refs : st2.refs = setRef st1.refs id2 st1.nextRef := by rw [hst2, hmon]
    have h2heap : st2.heap = updFn st1.heap st1.nextRef
        { pr_id := pr, status := "inProgress", retry_count := 0 } := by
      rw [hst2, hmon]
    refine ⟨?_, ?_, ?_, ?_⟩
    · rw [h2refs]; exact lookupRef_setRef_self _ id2 _
    · rw [hnext]; omega
    · rw [h2heap]; simp [updFn]
    · intro id3 hne h3
      refine ⟨?_, ?_⟩
      · rw [h2refs, lookupRef_setRef_ne _ id2 id3 _ hne]
        exact h3
      · rw [h2heap]
        simp only [updFn, hnext]
        rw [if_neg (by omega : ¬ r = st.nextRef)]

/-- Witness for C10: after retrying build 12345 (queued as 67890) the new
id aliases the original record, and a later `monitor_pr_build` for 67890
rebinds it to the fresh reference 1. -/
theorem buildMonitor_alias_reset_witness :
    lookupRef (retryBuild 3 c10Env (some 12345) c10St).2.refs 67890 = some 0 ∧
    lookupRef (monitorPrBuild 3 c10Env (some (.vInt 7)) (some 67890)
      (retryBuild 3 c10Env (some 12345) c10St).2).2.refs 67890 = some 1 := by
  have h := buildMonitor_alias_reset 3 c10Env c10St 12345 0 c10Ob cNb rfl
    (by decide) (by decide) rfl rfl _ rfl
  refine ⟨h.1.2.1, ?_⟩
  have hc := (h.2.2 67890 (some (.vInt 7)) c10Ob _ h.1.2.1 rfl (by decide) rfl).1
  exact hc

/-- **C8**: if the LLM `generate` call raises, `think` re-raises that same
failure and, before re-raising, writes exactly one ActionLogRecord for
this agent and session with `success = false` and the error summary in its
`result` field (and no memory entry); on success it writes exactly one
`conversation` memory entry pairing input and output with token usage and
model in the metadata, and exactly one ActionLogRecord with
`success = true`, returning the response. -/
theorem agent_think_contract (env : ThinkEnv) (ag : AgentMeta) (user_message : String)
    (context : Option (List (String × String))) (temperature : ℚ) (st : AgentState) :
    (∀ e, env.generate (thinkMessages ag user_message context st) temperature = .error e →
       think env ag user_message context temperature st =
         (.error e,
          { store := { st.store with agent_actions := st.store.agent_actions ++
              [{ agent_id := ag.agent_id, timestamp := st.clock + (env.latency : Int),
                 action_type := "think", target := "llm",
                 parameters := [("message", .vStr (strTake user_message 200))],
                 result := .vDict [("error", .vStr e)], success := false,
                 duration_ms := env.latency, session_id := some ag.session_id }] },
            clock := st.clock + (env.latency : Int) + 1 })) ∧
    (∀ resp, env.generate (thinkMessages ag user_message context st) temperature = .ok resp →
       think env ag user_message context temperature st =
         (.ok resp,
          { store := { st.store with
              agent_memory := st.store.agent_memory ++
                [{ agent_id := ag.agent_id, timestamp := st.clock + (env.latency : Int),
                   memory_type := "conversation",
                   content := "User: " ++ user_message ++ "\nAssistant: " ++ resp.content,
                   metadata := [("tokens", (resp.tokens_used.map PyVal.vInt).getD .vNone),
                                ("model", .vStr resp.model)],
                   session_id := some ag.session_id }],
              agent_actions := st.store.agent_actions ++
                [{ agent_id := ag.agent_id, timestamp := st.clock + (env.latency : Int) + 1,
                   action_type := "think", target := "llm",
                   parameters := [("message", .vStr (strTake user_message 200))],
                   result := .vDict [("content", .vStr (strTake resp.content 200))],
                   success := true, duration_ms := env.latency,
                   session_id := some ag.session_id }] },
            clock := st.clock + (env.latency : Int) + 1 + 1 })) := by
  constructor
  · intro e he
    simp only [think, he]
    rfl
  · intro resp hr
    simp only [think, hr]
    rfl

/-- Witness for C8: the simulated raising LLM makes `think` re-raise
`"boom"` after writing exactly one failed action record. -/
theorem agent_think_contract_witness :
    think c8EnvFail c8Meta "hello" none (7/10) cSt0 =
      (.error "boom",
       { store := { agent_memory := [], agent_actions := [c8FailRec], work_items := [] },
         clock := 6 }) := by
  exact (agent_think_contract c8EnvFail c8Meta "hello" none (7/10) cSt0).1 "boom" rfl

/-- **C5**: a task whose `type` is none of the three recognized types makes
`process_task` return a structured failure whose error string contains the
unrecognized type value; the dispatcher is total, so no exception crosses
the boundary. -/
theorem orchestrator_unknown_task (env : OrchEnv) (o : Orchestrator) (task : PyDict)
    (st : AgentState) (t : String)
    (ht : dictGet task "type" = some (.vStr t))
    (h1 : t ≠ "implement_story") (h2 : t ≠ "split_feature") (h3 : t ≠ "create_release") :
    (process_task env o task st).1 =
      [("success", .vBool false), ("error", .vStr ("Unknown task type: " ++ t))] ∧
    t.toList <:+: ("Unknown task type: " ++ t).toList := by
  constructor
  · simp only [process_task, ht]
    rw [if_neg h1, if_neg h2, if_neg h3]
    rfl
  · exact ⟨"Unknown task type: ".toList, [], by simp [String.toList]⟩

/-- Witness for C5: `process_task` on `type = "bogus"` returns the
structured failure containing `"bogus"`. -/
theorem orchestrator_unknown_task_witness :
    (process_task cOrchEnv cOrch [("type", .vStr "bogus")] cSt0).1 =
      [("success", .vBool false), ("error", .vStr ("Unknown task type: " ++ "bogus"))] ∧
    "bogus".toList <:+: ("Unknown task type: " ++ "bogus").toList := by
  exact orchestrator_unknown_task cOrchEnv cOrch _ cSt0 "bogus" rfl
    (by decide) (by decide) (by decide)

/-- **C6**: `create_release` with no registered `"release_manager"` agent
returns exactly `{success: False, error: "Release manager agent not
available"}` with no delegation; with one registered, the task is
delegated to it exactly once and its result is returned unchanged. -/
theorem orchestrator_create_release (env : OrchEnv) (o : Orchestrator) (task : PyDict)
    (st : AgentState)
    (ht : dictGet task "type" = some (.vStr "create_release")) :
    (lookupAgent o.registry "release_manager" = none →
       (process_task env o task st).1 =
         [("success", .vBool false), ("error", .vStr "Release manager agent not available")] ∧
       (process_task env o task st).2.2 = []) ∧
    (∀ f, lookupAgent o.registry "release_manager" = some f →
       (process_task env o task st).1 =
         f [("type", .vStr "create_release"),
            ("components", (dictGet task "components").getD (.vList [])),
            ("source_branch", (dictGet task "source_branch").getD (.vStr "main"))] ∧
       (process_task env o task st).2.2 =
         [("release_manager",
           [("type", .vStr "create_release"),
            ("components", (dictGet task "components").getD (.vList [])),
            ("source_branch", (dictGet task "source_branch").getD (.vStr "main"))])]) := by
  constructor
  · intro hno
    simp only [process_task, ht, if_true, createRelease, hno]
    exact ⟨rfl, rfl⟩
  · intro f hsome
    simp only [process_task, ht, if_true, createRelease, hsome]
    exact ⟨rfl, rfl⟩

/-- Witness for C6: the spec scenario on a fresh orchestrator yields the
exact structured failure, and with a release manager registered the
delegate's result is returned. -/
theorem orchestrator_create_release_witness :
    (process_task cOrchEnv cOrch
        [("type", .vStr "create_release"), ("components", .vList [.vStr "a", .vStr "b"]),
         ("source_branch", .vStr "main")] cSt0).1 =
      [("success", .vBool false), ("error", .vStr "Release manager agent not available")] ∧
    (process_task cOrchEnv c6Orch [("type", .vStr "create_release")] cSt0).1 =
      [("success", .vBool true), ("release_id", .vInt 9)] := by
  refine ⟨((orchestrator_create_release cOrchEnv cOrch
    [("type", .vStr "create_release"), ("components", .vList [.vStr "a", .vStr "b"]),
     ("source_branch", .vStr "main")] cSt0 rfl).1 rfl).1, ?_⟩
  have h2 := ((orchestrator_create_release cOrchEnv c6Orch
    [("type", .vStr "create_release")] cSt0 rfl).2 c6Rel rfl).1
  rw [h2]
  rfl

/-- **C7**: with no `"requirements"` agent registered, an `implement_story`
task for an existing work item (the LLM analysis succeeding) returns
`success = True` with the free-text analysis and performs no delegation at
all — in particular no registered code-repository agent is invoked. -/
theorem orchestrator_graceful_degradation (env : OrchEnv) (o : Orchestrator)
    (task : PyDict) (st : AgentState) (wi : PyDict) (tv dv : PyVal)
    (resp : LLMResponseM)
    (ht : dictGet task "type" = some (.vStr "implement_story"))
    (hnoreq : lookupAgent o.registry "requirements" = none)
    (hwi : env.getWorkItem (dictGet task "story_id") = some wi)
    (htitle : dictGet wi "title" = some tv)
    (hdesc : dictGet wi "description" = some dv)
    (hllm : ∀ msgs temp, env.llm.generate msgs temp = .ok resp) :
    (process_task env o task st).1 =
      [("success", .vBool true),
       ("story_id", (dictGet task "story_id").getD .vNone),
       ("analysis", .vStr resp.content)] ∧
    (process_task env o task st).2.2 = [] := by
  simp only [process_task, ht, if_true]
  simp only [implementStory, hwi, getKey, htitle, hdesc, think, hllm, hnoreq]
  exact ⟨trivial, trivial⟩

/-- Witness for C7: implementing story 42 with only a code-repo agent
registered yields the free-text analysis and an empty delegation trace. -/
theorem orchestrator_graceful_degradation_witness :
    (process_task c7Env c7Orch
        [("type", .vStr "implement_story"), ("story_id", .vInt 42)] cSt0).1 =
      [("success", .vBool true), ("story_id", .vInt 42), ("analysis", .vStr "plan")] ∧
    (process_task c7Env c7Orch
        [("type", .vStr "implement_story"), ("story_id", .vInt 42)] cSt0).2.2 = [] := by
  exact orchestrator_graceful_degradation c7Env c7Orch _ cSt0 c7WI (.vStr "T")
    (.vStr "D") c7Resp rfl rfl rfl rfl rfl (fun _ _ => rfl)

/-- Witness for C2 (amended): the returned entry matches the store, the
agent, the window and the provided non-empty filter, within the limit. -/
theorem get_recent_memories_contract_witness :
    c2WEntry ∈ c2WSt.agent_memory ∧ c2WEntry.agent_id = "a" ∧
    (10 : Int) - c2WEntry.timestamp ≤ ((1 : Nat) : Int) * msPerHour ∧
    c2WEntry.memory_type = "observation" ∧
    (get_recent_memories c2WSt 10 "a" 5 (some "observation") none 1).length ≤ 5 := by
  have h := get_recent_memories_contract c2WSt 10 "a" 5 (some "observation") none 1
  have hres : get_recent_memories c2WSt 10 "a" 5 (some "observation") none 1 = [c2WEntry] := rfl
  have hm : c2WEntry ∈ get_recent_memories c2WSt 10 "a" 5 (some "observation") none 1 := by
    rw [hres]; exact List.mem_singleton.mpr rfl
  obtain ⟨h1, h2, h3, h4, _⟩ := h.1 c2WEntry hm
  exact ⟨h1, h2, h3, h4 "observation" rfl (by decide), h.2.2.1⟩

/-- Witness for C3: the `think` bucket of the concrete store satisfies
`count = successful + failed` (2 = 1 + 1). -/
theorem get_agent_statistics_contract_witness :
    ("think", c3Stats) ∈ get_agent_statistics c3St 10 "a" 1 ∧
    c3Stats.count = c3Stats.successful + c3Stats.failed := by
  have h := get_agent_statistics_contract c3St 10 "a" 1
  have hres : get_agent_statistics c3St 10 "a" 1 = [("think", c3Stats)] := rfl
  have hm : ("think", c3Stats) ∈ get_agent_statistics c3St 10 "a" 1 := by
    rw [hres]; exact List.mem_singleton.mpr rfl
  exact ⟨hm, (h.1 "think" c3Stats hm).1⟩

/-- Witness for C4: round trip at time 100, overwrite at time 200, and a
never-stored id. -/
theorem work_item_roundtrip_witness :
    get_work_item (store_work_item c4St 100 "WI-1" "story" "Title" "Desc" "new" none none)
        "WI-1" =
      some { work_item_id := "WI-1", timestamp := 100, item_type := "story",
             title := "Title", description := "Desc", state := "new",
             assigned_agent := none, metadata := [] } ∧
    get_work_item (store_work_item
        (store_work_item c4St 100 "WI-1" "story" "Title" "Desc" "new" none none)
        200 "WI-1" "story" "Title2" "Desc2" "active" (some "orchestrator") none) "WI-1" =
      some { work_item_id := "WI-1", timestamp := 200, item_type := "story",
             title := "Title2", description := "Desc2", state := "active",
             assigned_agent := some "orchestrator", metadata := [] } ∧
    get_work_item c4St "WI-1" = none := by
  have h := work_item_roundtrip c4St 100 200 "WI-1" "story" "Title" "Desc" "new" none none
    "story" "Title2" "Desc2" "active" (some "orchestrator") none
    (fun r hr => absurd hr (List.not_mem_nil r)) (by decide)
  exact ⟨h.1, h.2.1, h.2.2 (fun r hr => absurd hr (List.not_mem_nil r))⟩

/-- Witness for C9: `search_memories("build_monitor", "timeout", 50)`
returns exactly the `"build failed: timeout"` entry, which matches
case-insensitively. -/
theorem search_memories_contract_witness :
    search_memories c9St "build_monitor" "timeout" 50 = [c9E1] ∧
    (c9E1 ∈ c9St.agent_memory ∧ c9E1.agent_id = "build_monitor" ∧
     strLower "timeout" <:+: strLower c9E1.content) := by
  have h := search_memories_contract c9St "build_monitor" "timeout" 50
  have hres : search_memories c9St "build_monitor" "timeout" 50 = [c9E1] := rfl
  have hm : c9E1 ∈ search_memories c9St "build_monitor" "timeout" 50 := by
    rw [hres]; exact List.mem_singleton.mpr rfl
  exact ⟨hres, h.1 c9E1 hm⟩

end SDLC
